import Mathlib

/-!
Verification of the `piped` relay engine.

The development shallowly embeds the repository's JavaScript source:
`piped.js` (the monolithic module, given here as `src/unnamed/part_000`),
`lib/remote_send.js` and `lib/admin_server.js`.  Time (`_now()`) is passed
explicitly as a `Nat` parameter; fresh connection-handle identity is passed
as a `Nat` parameter; logging is either elided or returned as an
`Option String` where a claim depends on it.

A central fact of the source is how backend health state is wired.
`_RemoteConnect` (piped.js lines 198-244) declares `is_available`,
`state_changed`, `state_changes`, `last_sent` and the closures
`mark_available` / `mark_unavailable` / `incr_stats` / `stats` with
`var obj = this`.  The two child constructors are wired as
`RemoteUDPConnect.prototype = new _RemoteConnect()` (line 151) and
`RemoteStreamConnect.prototype = new _RemoteConnect()` (line 194):
`_RemoteConnect` runs exactly once per child class, so each class has one
shared prototype object holding the health fields, every closure captures
that prototype object, and instances never create own copies of the
fields.  Consequently all stream backends share a single mutable health
cell and all udp backends share another.  The embedding models this with
`Protos`, a pair of shared `ProtoState` cells indexed by transport kind.
-/

namespace Piped

/-- Transport kind of a remote destination: `stream` covers TCP and
unix-domain sockets (`RemoteStreamConnect`), `udp` covers datagram sockets
(`RemoteUDPConnect`). -/
inductive Kind
  | stream
  | udp
deriving DecidableEq

/-- A live transport handle.  `id` identifies the handle (a fresh id is
supplied for each constructed connection); `destroyed` models the node
socket's `destroyed` flag read by `_available_server` (dgram sockets have
no such property, i.e. it is never true for them). -/
structure Conn where
  id : Nat
  destroyed : Bool
deriving DecidableEq

/-- The mutable health/stats fields declared by the `_RemoteConnect` base
constructor (piped.js lines 198-231).  As explained in the module comment,
one such cell is shared by all backends of a given transport kind through
the class prototype.  `last_sent` starts out as `false` in the source;
`none` models that, `some t` models a timestamp. -/
structure ProtoState where
  is_available : Bool
  state_changed : Nat
  state_changes : Nat
  last_sent : Option Nat
deriving DecidableEq

/-- Field values set by the `_RemoteConnect` constructor body
(lines 199-202), run once per class at prototype creation time. -/
def initProto (bootTime : Nat) : ProtoState :=
  { is_available := false
    state_changed := bootTime
    state_changes := 0
    last_sent := none }

/-- The two shared prototype cells: one for all stream backends, one for
all udp backends. -/
structure Protos where
  streamProto : ProtoState
  udpProto : ProtoState
deriving DecidableEq

/-- Reading the health cell a backend of kind `k` delegates to. -/
def protoOf (ps : Protos) : Kind → ProtoState
  | Kind.stream => ps.streamProto
  | Kind.udp => ps.udpProto

/-- Writing the health cell of kind `k`. -/
def setProto (ps : Protos) : Kind → ProtoState → Protos
  | Kind.stream, p => { ps with streamProto := p }
  | Kind.udp, p => { ps with udpProto := p }

/-- `mark_available` (piped.js lines 215-220): set the flag true, stamp
`state_changed` with the current time, increment `state_changes`. -/
def mark_available (now : Nat) (p : ProtoState) : ProtoState :=
  { p with is_available := true
           state_changed := now
           state_changes := p.state_changes + 1 }

/-- `mark_unavailable` (piped.js lines 222-227): set the flag false, stamp
`state_changed`, increment `state_changes`. -/
def mark_unavailable (now : Nat) (p : ProtoState) : ProtoState :=
  { p with is_available := false
           state_changed := now
           state_changes := p.state_changes + 1 }

/-- `incr_stats` (piped.js lines 229-231): record the send time only. -/
def incr_stats (now : Nat) (p : ProtoState) : ProtoState :=
  { p with last_sent := some now }

/-- A remote backend instance.  The fields the child constructors set as
own properties on the instance: its kind, its `name` (the configured
connection string) and its `connection` handle.  (`is_stream` is `true`
exactly for stream instances, so it is derived from `kind`; `send` is
modelled by `udpSend`/plain write.) -/
structure Backend where
  kind : Kind
  name : String
  connection : Conn
deriving DecidableEq

/-- `RemoteStreamConnect` constructor (piped.js lines 156-193): creates a
fresh connection handle, sets `is_stream`/`name`/`send`, registers the
`connect` and `error` handlers.  It does not touch the shared health cell;
availability changes only when those handlers fire
(`streamConnectEvent` / `streamErrorEvent`). -/
def RemoteStreamConnect (name : String) (fid : Nat) : Backend :=
  { kind := Kind.stream, name := name, connection := { id := fid, destroyed := false } }

/-- `RemoteUDPConnect` constructor (piped.js lines 120-150): creates a
fresh dgram socket, sets `name`/`send`, and calls `this.mark_available()`
(line 149), which resolves to the shared udp prototype cell. -/
def RemoteUDPConnect (now : Nat) (name : String) (fid : Nat) (ps : Protos) :
    Backend × Protos :=
  ({ kind := Kind.udp, name := name, connection := { id := fid, destroyed := false } },
   setProto ps Kind.udp (mark_available now (protoOf ps Kind.udp)))

/-- The `connect` handler registered by `RemoteStreamConnect`
(lines 175-180): logs and calls `mark_available` on the shared stream
cell. -/
def streamConnectEvent (now : Nat) (ps : Protos) : Protos :=
  setProto ps Kind.stream (mark_available now (protoOf ps Kind.stream))

/-- The `error` handler registered by `RemoteStreamConnect`
(lines 183-192): emits a trace line when `Config.trace` is set, then calls
`mark_unavailable` on the shared stream cell.  Returns the optional log
line together with the updated cells. -/
def streamErrorEvent (trace : Bool) (now : Nat) (name msg : String) (ps : Protos) :
    Option String × Protos :=
  (if trace then some ("ERROR: " ++ name ++ ": " ++ msg) else none,
   setProto ps Kind.stream (mark_unavailable now (protoOf ps Kind.stream)))

/-- The availability a given backend observes: its kind's shared cell. -/
def observedAvail (ps : Protos) (b : Backend) : Bool :=
  (protoOf ps b.kind).is_available

/-- Usability in the sense of the specification (section 4.1): available
and the connection handle not destroyed.  Used to state the spec-side
selection policy. -/
def is_usable (ps : Protos) (b : Backend) : Bool :=
  (protoOf ps b.kind).is_available && !b.connection.destroyed

/-- Spec-side selector, written from the specification's words
(section 4.2 / claim C1): the lowest-index backend usable at call time, or
none.  Compared against the source's `_available_server`. -/
def select_spec (ps : Protos) (bs : List Backend) : Option Backend :=
  bs.find? (is_usable ps)

/-- `_available_server` (piped.js lines 426-466): scan the server list in
order; skip a server whose observed `is_available === false`; if a
scanned server's handle is `destroyed`, log, `mark_unavailable()` it (the
shared cell of its kind) and continue; otherwise return it.  If the scan
exhausts the list, log "No available servers" and return `false`
(modelled as `none`).  The updated shared cells are returned alongside. -/
def _available_server (now : Nat) : List Backend → Protos → Option Backend × Protos
  | [], ps => (none, ps)
  | b :: rest, ps =>
    if (protoOf ps b.kind).is_available = false then
      _available_server now rest ps
    else if b.connection.destroyed then
      _available_server now rest (setProto ps b.kind (mark_unavailable now (protoOf ps b.kind)))
    else
      (some b, ps)

/-- The bridging strategy chosen by `LocalStreamListen`'s connection
handler: `conn.pipe(remote.connection)` for stream remotes, a manual
`data` → `remote.send` handler otherwise. -/
inductive Bridged
  | piped (name : String)
  | manual (name : String)
deriving DecidableEq

/-- The `connection` handler of `LocalStreamListen` (piped.js
lines 321-347).  It selects a remote with `_available_server`, bumps the
listener's counters, then calls `remote.incr_stats( remote )` without
checking for the `false` no-server return value; in that case the method
access on `false` raises a TypeError, which is uncaught in the event loop
(modelled as `Except.error`).  Otherwise it records the send on the
remote's shared cell and pipes (stream remote) or installs the manual
forwarder (udp remote). -/
def onConnection (now : Nat) (servers : List Backend) (ps : Protos) :
    Except String Bridged × Protos :=
  match _available_server now servers ps with
  | (none, ps1) =>
    (Except.error "TypeError: Object false has no method incr_stats", ps1)
  | (some b, ps1) =>
    let ps2 := setProto ps1 b.kind (incr_stats now (protoOf ps1 b.kind))
    if b.kind = Kind.stream then (Except.ok (Bridged.piped b.name), ps2)
    else (Except.ok (Bridged.manual b.name), ps2)

/-- The datagram payload actually handed to `connection.send` by
`RemoteUDPConnect.send` (piped.js lines 130-145): bytes `0..len` of the
buffer, where `len = buf.length - 1` when `Config.encoding === 'ascii'`
and `len = buf.length` otherwise.  (For an empty buffer under ascii the
node call would reject the negative length; claims are evaluated on
non-empty payloads.) -/
def udpSend (encoding : String) (data : List Nat) : List Nat :=
  if encoding = "ascii" then data.take (data.length - 1) else data

/-- The state-mutating operations of the `_RemoteConnect` cell: the two
mark operations and `incr_stats`, each carrying the `_now()` value at
which it runs.  (`stats()` is a pure read and mutates nothing.) -/
inductive ROp
  | mark_a (t : Nat)
  | mark_u (t : Nat)
  | incr (t : Nat)
deriving DecidableEq

/-- Dispatch one operation on a cell. -/
def applyOp (p : ProtoState) : ROp → ProtoState
  | ROp.mark_a t => mark_available t p
  | ROp.mark_u t => mark_unavailable t p
  | ROp.incr t => incr_stats t p

/-- Run a call sequence against a cell. -/
def runOps (p : ProtoState) (ops : List ROp) : ProtoState :=
  ops.foldl applyOp p

/-- Health/stats state of a `_RemoteSend` object
(lib/remote_send.js lines 15-69).  Unlike the monolith, this rewrite
creates the fields per object (`Base.BaseObject()` plus own assignments),
and it additionally counts forwarded messages. -/
structure RSState where
  is_available : Bool
  state_changed : Nat
  state_changes : Nat
  last_sent : Option Nat
  messages : Nat
deriving DecidableEq

/-- `mark_available` of lib/remote_send.js (lines 31-38). -/
def RS_mark_available (now : Nat) (s : RSState) : RSState :=
  { s with is_available := true
           state_changed := now
           state_changes := s.state_changes + 1 }

/-- `mark_unavailable` of lib/remote_send.js (lines 40-47). -/
def RS_mark_unavailable (now : Nat) (s : RSState) : RSState :=
  { s with is_available := false
           state_changed := now
           state_changes := s.state_changes + 1 }

/-- `incr_stats` of lib/remote_send.js (lines 49-52). -/
def RS_incr_stats (now : Nat) (s : RSState) : RSState :=
  { s with last_sent := some now, messages := s.messages + 1 }

/-- The `error` handler registered by `RemoteStreamSend`
(lib/remote_send.js lines 103-110): it only emits a log line (always on
the initial connect, behind the trace flag on reconnects) and leaves the
object's state untouched. -/
def RS_onError (trace reconnect : Bool) (name msg : String) (s : RSState) :
    Option String × RSState :=
  (if trace || !reconnect then some ("ERROR: " ++ name ++ ": " ++ msg) else none, s)

/-- Word character, as in the regex class `\w`. -/
def isWordChar (c : Char) : Bool :=
  c.isAlphanum || c = '_'

/-- Whether a `host:port` tail matches `(.+?):(\d+)$`: some split point
with a non-empty host before a colon and a non-empty all-digit port after
it, running to the end. -/
def hostPortOk (hp : List Char) : Bool :=
  (List.range hp.length).any fun i =>
    decide (1 ≤ i) && decide (hp.get? i = some ':') &&
    decide (i + 1 < hp.length) && (hp.drop (i + 1)).all Char.isDigit

/-- The connection-string dispatch inside `_connect_to_server`
(piped.js lines 263-291): `/^\/.+?/` selects a unix socket (stream);
otherwise `/^(\w+):\/\/(.+?):(\d+)$/` with scheme `tcp` selects stream
and `udp` selects datagram; any other scheme or an unparsable string
throws (modelled as `none`). -/
def parseServer (str : String) : Option Kind :=
  let cs := str.toList
  if cs.take 1 = ['/'] ∧ 2 ≤ cs.length then some Kind.stream
  else
    let scheme := cs.takeWhile isWordChar
    let rest := cs.drop scheme.length
    if scheme.isEmpty then none
    else if decide (rest.take 3 = [':', '/', '/']) = false then none
    else if hostPortOk (rest.drop 3) = false then none
    else if scheme = "tcp".toList then some Kind.stream
    else if scheme = "udp".toList then some Kind.udp
    else none

/-- `_connect_to_server` (piped.js lines 252-294): parse the string and
construct the matching remote object with a fresh handle.  The udp
constructor marks the shared udp cell available; the stream constructor
leaves the cells untouched.  `none` models the throw on garbage input. -/
def _connect_to_server (now fid : Nat) (name : String) (ps : Protos) :
    Option (Backend × Protos) :=
  match parseServer name with
  | some Kind.stream => some (RemoteStreamConnect name fid, ps)
  | some Kind.udp => some (RemoteUDPConnect now name fid ps)
  | none => none

/-- Process-wide relay state: the ordered backend list (`State.servers`,
object keys in configured insertion order) and the shared health cells. -/
structure World where
  servers : List Backend
  protos : Protos
deriving DecidableEq

/-- One pass of the reconnect interval body (piped.js lines 615-633) over
the remaining server list: each server whose observed `is_available ===
false` is replaced by `_connect_to_server(name, true)`, unconditionally
constructing a fresh connection handle; other servers are kept.  `fid`
numbers the fresh handles; it advances by one per position.  `none`
models a throw from an unparsable name. -/
def tickGo (now : Nat) : Nat → List Backend → Protos → Option (List Backend × Protos)
  | _, [], ps => some ([], ps)
  | fid, b :: rest, ps =>
    if (protoOf ps b.kind).is_available = false then
      match _connect_to_server now fid b.name ps with
      | none => none
      | some (b2, ps2) =>
        match tickGo now (fid + 1) rest ps2 with
        | none => none
        | some (bs, psf) => some (b2 :: bs, psf)
    else
      match tickGo now (fid + 1) rest ps with
      | none => none
      | some (bs, psf) => some (b :: bs, psf)

/-- One tick of the reconnect supervisor (`reconnectInt`,
piped.js lines 615-633). -/
def reconnectTick (now fid : Nat) (w : World) : Option World :=
  (tickGo now fid w.servers w.protos).map fun r => { servers := r.1, protos := r.2 }

/-- `Stats.connections` of the monolith (piped.js lines 96-104).  `last`
is a timestamp, `0` standing for the falsy initial value. -/
structure Connections where
  admin : Nat
  tcp : Nat
  udp : Nat
  socket : Nat
  total : Nat
  last : Nat
  idle : Nat
deriving DecidableEq

/-- Process stats of the monolith (piped.js lines 95-107). -/
structure P0Stats where
  connections : Connections
  start_time : Nat
  uptime : Nat
deriving DecidableEq

/-- The record returned by `stats()` (piped.js lines 233-242), computed
from a shared cell, the current time and the recomputed uptime. -/
structure ServerStats where
  available : Bool
  last_sent : Option Nat
  state_changes : Nat
  state_changed : Nat
  idle : Nat
deriving DecidableEq

/-- `stats()` (piped.js lines 233-242). -/
def protoStats (now uptime : Nat) (p : ProtoState) : ServerStats :=
  { available := p.is_available
    last_sent := p.last_sent
    state_changes := p.state_changes
    state_changed := now - p.state_changed
    idle := match p.last_sent with
            | some t => now - t
            | none => uptime }

/-- JSON rendering of a boolean. -/
def jsonBool : Bool → String
  | true => "true"
  | false => "false"

/-- JSON rendering of `last_sent` (`false` until first use). -/
def jsonLastSent : Option Nat → String
  | none => "false"
  | some n => toString n

/-- JSON rendering of one `stats()` record.  This and the following
functions model `_json_pp` = `JSON.stringify(..., null, 2)`
(piped.js line 68) up to whitespace. -/
def serverStatsJson (s : ServerStats) : String :=
  "\x7b \"available\": " ++ jsonBool s.available ++
  ", \"last_sent\": " ++ jsonLastSent s.last_sent ++
  ", \"state_changes\": " ++ toString s.state_changes ++
  ", \"state_changed\": " ++ toString s.state_changed ++
  ", \"idle\": " ++ toString s.idle ++ " \x7d"

/-- JSON rendering of the connection counters. -/
def connectionsJson (c : Connections) : String :=
  "\x7b \"admin\": " ++ toString c.admin ++
  ", \"tcp\": " ++ toString c.tcp ++
  ", \"udp\": " ++ toString c.udp ++
  ", \"socket\": " ++ toString c.socket ++
  ", \"total\": " ++ toString c.total ++
  ", \"last\": " ++ toString c.last ++
  ", \"idle\": " ++ toString c.idle ++ " \x7d"

/-- JSON rendering of the process stats. -/
def statsJson (st : P0Stats) : String :=
  "\x7b \"connections\": " ++ connectionsJson st.connections ++
  ", \"start_time\": " ++ toString st.start_time ++
  ", \"uptime\": " ++ toString st.uptime ++ " \x7d"

/-- JSON rendering of the per-server stats map. -/
def serversJson (m : List (String × ServerStats)) : String :=
  "\x7b " ++
  String.intercalate ", " (m.map fun p => "\"" ++ p.1 ++ "\": " ++ serverStatsJson p.2) ++
  " \x7d"

/-- `___admin_command` of the monolith (piped.js lines 492-532).  It
recomputes `Stats.uptime` and `Stats.connections.idle`, then dispatches:
`stats` returns the pretty-printed stats plus per-server `stats()` map;
`ping` returns `pong`; `logrotate` returns `TODO`; `dump` logs the state
and, lacking a break or return, falls through to the default, which
returns the fixed string `"ERROR\n"` (the command name is not echoed). -/
def ___admin_command (now : Nat) (cmd : String) (st : P0Stats)
    (servers : List Backend) (ps : Protos) : String × P0Stats :=
  let uptime := now - st.start_time
  let idle := if st.connections.last ≠ 0 then now - st.connections.last else uptime
  let st2 : P0Stats :=
    { st with uptime := uptime, connections := { st.connections with idle := idle } }
  match cmd with
  | "stats" =>
    ("\x7b \"stats\": " ++ statsJson st2 ++ ", \"servers\": " ++
       serversJson (servers.map fun b => (b.name, protoStats now st2.uptime (protoOf ps b.kind))) ++
       " \x7d",
     st2)
  | "ping" => ("pong", st2)
  | "logrotate" => ("TODO", st2)
  | _ => ("ERROR\n", st2)

/-- Model of the JavaScript `String.prototype.trim` applied to each
received admin chunk: strip whitespace from both ends. -/
def jsTrim (s : String) : String :=
  String.mk (((s.toList.dropWhile Char.isWhitespace).reverse.dropWhile
      Char.isWhitespace).reverse)

/-- The admin connection's `data` handler loop (piped.js lines 571-588):
for each received chunk, bump `Stats.connections.admin`, trim the chunk
into a command and write the reply of `___admin_command` back on the same
stream.  Nothing in the handler ever closes the connection, so every
subsequent chunk is processed the same way; the function returns the
replies in order. -/
def admin_session (now : Nat) (servers : List Backend) (ps : Protos) :
    List String → P0Stats → List String × P0Stats
  | [], st => ([], st)
  | d :: ds, st =>
    let st1 : P0Stats :=
      { st with connections := { st.connections with admin := st.connections.admin + 1 } }
    let r := ___admin_command now (jsTrim d) st1 servers ps
    let rs := admin_session now servers ps ds r.2
    (r.1 :: rs.1, rs.2)

/-- Stats fields touched by the lib admin handler
(lib/admin_server.js lines 23-29). -/
structure LibStats where
  uptime : Nat
  last : Option Nat
  idle : Nat
deriving DecidableEq

/-- `___admin_command` of lib/admin_server.js (lines 16-83).  `puptime` is
`process.uptime()`; `configText` stands for `C._json_pp(config)` (the
configurator and lib/common.js are not part of the sources; their output
is passed through as a plain string value).  Dispatch: `config` returns
the configuration text, `ping` returns `pong`, `__dump` logs and returns
`OK`, and anything else returns an error line naming the command.  The
surrounding try/catch turns an exception into an error reply; the embedded
branches are total, so the catch arm is unreachable here. -/
def lib_admin_command (now puptime : Nat) (cmd : String) (st : LibStats)
    (configText : String) : String × LibStats :=
  let idle := match st.last with
              | some t => now - t
              | none => puptime
  let st2 : LibStats := { st with uptime := puptime, idle := idle }
  match cmd with
  | "config" => (configText, st2)
  | "ping" => ("pong", st2)
  | "__dump" => ("OK", st2)
  | _ => ("ADMIN ERROR: UNKNOWN COMMAND " ++ cmd ++ "\n", st2)

/-- The lib admin connection's `data` handler loop
(lib/admin_server.js lines 94-105): trim each chunk and write back the
dispatcher's reply; the connection is never closed by the handler. -/
def lib_admin_session (now puptime : Nat) (configText : String) :
    List String → LibStats → List String × LibStats
  | [], st => ([], st)
  | d :: ds, st =>
    let r := lib_admin_command now puptime (jsTrim d) st configText
    let rs := lib_admin_session now puptime configText ds r.2
    (r.1 :: rs.1, rs.2)

/-! Concrete inputs used by the evaluation theorems below. -/

/-- Both shared cells in their boot state. -/
def protos0 : Protos :=
  { streamProto := initProto 0, udpProto := initProto 0 }

/-- Two configured stream backends; the first one's handle has been
destroyed by the remote end, the second one's handle is live. -/
def c1servers : List Backend :=
  [{ kind := Kind.stream, name := "tcp://localhost:10001",
     connection := { id := 0, destroyed := true } },
   { kind := Kind.stream, name := "tcp://localhost:10002",
     connection := { id := 1, destroyed := false } }]

/-- Shared cells after both stream backends connected once: the stream
cell is available. -/
def c1protos : Protos :=
  { streamProto :=
      { is_available := true, state_changed := 2, state_changes := 1, last_sent := none },
    udpProto := initProto 0 }

/-- A single stream backend whose connect has not yet completed. -/
def c2servers : List Backend :=
  [{ kind := Kind.stream, name := "tcp://localhost:10001",
     connection := { id := 0, destroyed := false } }]

/-- One unavailable stream backend, boot-state cells, never reconnected. -/
def c6w : World :=
  { servers := [{ kind := Kind.stream, name := "tcp://localhost:10001",
                  connection := { id := 0, destroyed := false } }],
    protos := protos0 }

/-- An unavailable stream backend with a destroyed handle, for the
amended reconnect theorem's witness. -/
def c6wb : Backend :=
  { kind := Kind.stream, name := "tcp://localhost:10002",
    connection := { id := 3, destroyed := true } }

/-- World around `c6wb`. -/
def c6ww : World := { servers := [c6wb], protos := protos0 }

/-- `c6ww` after one supervisor tick with fresh handle id 7. -/
def c6wx : World :=
  { servers := [RemoteStreamConnect "tcp://localhost:10002" (7 + 0)], protos := protos0 }

/-- An unavailable unix-socket backend with accumulated stats on the
shared stream cell. -/
def c7b : Backend :=
  { kind := Kind.stream, name := "/tmp/echo1.socket",
    connection := { id := 0, destroyed := true } }

/-- World around `c7b`: three state changes and a last send recorded. -/
def c7w : World :=
  { servers := [c7b],
    protos :=
      { streamProto :=
          { is_available := false, state_changed := 2, state_changes := 3, last_sent := some 1 },
        udpProto := initProto 0 } }

/-- `c7w` after one supervisor tick with fresh handle id 4. -/
def c7wx : World :=
  { servers := [RemoteStreamConnect "/tmp/echo1.socket" (4 + 0)], protos := c7w.protos }

/-- A destroyed stream backend followed by a live udp backend. -/
def c10b1 : Backend :=
  { kind := Kind.stream, name := "tcp://localhost:10001",
    connection := { id := 0, destroyed := true } }

/-- The live udp backend behind `c10b1`. -/
def c10b2 : Backend :=
  { kind := Kind.udp, name := "udp://localhost:10005",
    connection := { id := 1, destroyed := false } }

/-- The two-element backend list for the selection frame witness. -/
def c10bs : List Backend := [c10b1, c10b2]

/-- Both cells available. -/
def c10ps : Protos :=
  { streamProto :=
      { is_available := true, state_changed := 0, state_changes := 1, last_sent := none },
    udpProto :=
      { is_available := true, state_changed := 0, state_changes := 1, last_sent := none } }

/-- `c10ps` after the scan demotes the destroyed stream backend. -/
def c10psx : Protos :=
  { streamProto := mark_unavailable 5 c10ps.streamProto, udpProto := c10ps.udpProto }

/-- An available stream cell, for the error-event counterexample. -/
def c8ps : Protos :=
  { streamProto :=
      { is_available := true, state_changed := 4, state_changes := 1, last_sent := none },
    udpProto := initProto 0 }

/-- Boot-state process stats of the monolith. -/
def c9stats : P0Stats :=
  { connections := { admin := 0, tcp := 0, udp := 0, socket := 0, total := 0, last := 0, idle := 0 },
    start_time := 0, uptime := 0 }

/-- Boot-state stats of the lib admin handler. -/
def c9lib : LibStats := { uptime := 0, last := none, idle := 0 }

/-! Helper lemmas. -/

/-- Reading one cell after writing another. -/
theorem protoOf_setProto (ps : Protos) (p : ProtoState) (k k0 : Kind) :
    protoOf (setProto ps k0 p) k = if k = k0 then p else protoOf ps k := by
  cases k <;> cases k0 <;> simp [protoOf, setProto]

/-- Every single cell operation keeps `state_changes` non-decreasing. -/
theorem applyOp_mono (p : ProtoState) (o : ROp) :
    p.state_changes ≤ (applyOp p o).state_changes := by
  cases o <;> simp [applyOp, mark_available, mark_unavailable, incr_stats]

/-- Call sequences keep `state_changes` non-decreasing. -/
theorem runOps_mono : ∀ (ops : List ROp) (p : ProtoState),
    p.state_changes ≤ (runOps p ops).state_changes
  | [], _ => Nat.le_refl _
  | o :: ops, p => Nat.le_trans (applyOp_mono p o) (runOps_mono ops (applyOp p o))

/-! Claim theorems. -/

/-- C3: on the `_RemoteConnect` cell, `is_available` is changed only by
the mark operations (`incr_stats` leaves flag, counter and timestamp
untouched); each mark call sets the flag, stamps `state_changed` with the
current time and increments `state_change_count` in the same update; two
consecutive `mark_available` calls increment the counter twice (no
deduplication); the counter is monotonically non-decreasing over every
call sequence.  The same holds for the per-object state of
lib/remote_send.js, whose `incr_stats` additionally counts messages. -/
theorem C3_ops : ∀ (p : ProtoState) (s : RSState) (t u : Nat) (ops : List ROp),
    ((applyOp p (ROp.incr t)).is_available = p.is_available
      ∧ (applyOp p (ROp.incr t)).state_changes = p.state_changes
      ∧ (applyOp p (ROp.incr t)).state_changed = p.state_changed)
    ∧ ((applyOp p (ROp.mark_a t)).is_available = true
      ∧ (applyOp p (ROp.mark_a t)).state_changed = t
      ∧ (applyOp p (ROp.mark_a t)).state_changes = p.state_changes + 1)
    ∧ ((applyOp p (ROp.mark_u t)).is_available = false
      ∧ (applyOp p (ROp.mark_u t)).state_changed = t
      ∧ (applyOp p (ROp.mark_u t)).state_changes = p.state_changes + 1)
    ∧ (runOps p [ROp.mark_a t, ROp.mark_a u]).state_changes = p.state_changes + 2
    ∧ p.state_changes ≤ (runOps p ops).state_changes
    ∧ ((RS_mark_available t s).is_available = true
      ∧ (RS_mark_available t s).state_changed = t
      ∧ (RS_mark_available t s).state_changes = s.state_changes + 1
      ∧ (RS_mark_unavailable t s).is_available = false
      ∧ (RS_mark_unavailable t s).state_changes = s.state_changes + 1
      ∧ (RS_mark_available u (RS_mark_available t s)).state_changes = s.state_changes + 2
      ∧ (RS_incr_stats t s).is_available = s.is_available
      ∧ (RS_incr_stats t s).state_changes = s.state_changes) := by
  intro p s t u ops
  exact ⟨⟨rfl, rfl, rfl⟩, ⟨rfl, rfl, rfl⟩, ⟨rfl, rfl, rfl⟩, rfl, runOps_mono ops p,
    rfl, rfl, rfl, rfl, rfl, rfl, rfl, rfl⟩

/-- C1: evaluation of `_available_server` at the failing input.  Both
stream backends share the prototype health cell; scanning the first
(destroyed) backend marks that shared cell unavailable, so the second
backend — usable at call time by the claim's own definition, as
`select_spec` shows — is skipped and the call returns `false`. -/
theorem C1_eval :
    (_available_server 5 c1servers c1protos).1 = none
    ∧ select_spec c1protos c1servers =
        some { kind := Kind.stream, name := "tcp://localhost:10002",
               connection := { id := 1, destroyed := false } }
    ∧ (_available_server 5 c1servers c1protos).2.streamProto.is_available = false := by
  decide

/-- C2: evaluation of the `LocalStreamListen` connection handler at the
failing input: a stream connection arriving while no backend is usable.
`_available_server` returns `false` and the unguarded
`remote.incr_stats( remote )` raises a TypeError — an uncaught fault in
the event loop, not a graceful drop. -/
theorem C2_eval :
    (onConnection 7 c2servers protos0).1 =
      Except.error "TypeError: Object false has no method incr_stats" := by
  rfl

/-- C4: evaluation at the failing input.  After one stream backend's
connect completes (marking the shared stream cell available), a newly
constructed stream backend observes `is_available = true` immediately,
before any connect of its own — contradicting the claimed
start-unavailable behavior.  The datagram half of the claim does hold:
`RemoteUDPConnect` marks its cell available in the constructor. -/
theorem C4_eval :
    observedAvail (streamConnectEvent 3 protos0)
        (RemoteStreamConnect "tcp://localhost:10002" 1) = true
    ∧ (RemoteUDPConnect 3 "udp://localhost:10005" 0 protos0).2.udpProto.is_available = true := by
  decide

/-- C5 counterexample: a datagram payload with no trailing terminator is
still shortened under the ascii encoding — `send` drops the last data
byte, contradicting "not trimmed when absent". -/
theorem C5_cx :
    udpSend "ascii" [104, 105, 33] = [104, 105]
    ∧ udpSend "ascii" [104, 105, 33] ≠ [104, 105, 33] := by
  decide

/-- C5 amended: under the ascii encoding the udp send always forwards the
payload minus its final byte — trimming a trailing terminator exactly
once when present, but dropping the last byte even when no terminator is
present; any other encoding forwards the payload unchanged. -/
theorem C5_trim (data : List Nat) (e : String) (hd : data ≠ []) (he : e ≠ "ascii") :
    udpSend "ascii" (data ++ [10]) = data
    ∧ udpSend "ascii" data = data.dropLast
    ∧ udpSend e data = data := by
  refine ⟨?_, ?_, ?_⟩
  · simp [udpSend]
  · simp [udpSend, List.dropLast_eq_take]
  · simp [udpSend, he]

/-- Witness for `C5_trim` at a concrete payload and encoding. -/
theorem C5_trim_witness :
    (([104, 105] : List Nat) ≠ [] ∧ "utf8" ≠ "ascii")
    ∧ (udpSend "ascii" ([104, 105] ++ [10]) = [104, 105]
       ∧ udpSend "ascii" [104, 105] = List.dropLast [104, 105]
       ∧ udpSend "utf8" [104, 105] = [104, 105]) :=
  ⟨⟨by decide, by decide⟩, C5_trim [104, 105] "utf8" (by decide) (by decide)⟩

/-- C8 counterexample: one `error` event on a part_000 stream backend's
connection handle flips `is_available` from true to false — the claim
says the flag remains unchanged by a single transport error. -/
theorem C8_cx :
    c8ps.streamProto.is_available = true
    ∧ (streamErrorEvent true 9 "tcp://localhost:10001" "ECONNRESET" c8ps).2.streamProto.is_available
        = false := by
  decide

/-- C8 amended: in piped.js (part_000) a single connection `error` event
immediately marks the backend unavailable through `mark_unavailable`
(flag false, counter incremented, udp cell untouched); in
lib/remote_send.js the `RemoteStreamSend` error handler only logs and
leaves the backend state unchanged. -/
theorem C8_err : ∀ (ps : Protos) (tr tr2 rc : Bool) (t : Nat) (n m : String) (s : RSState),
    (streamErrorEvent tr t n m ps).2.streamProto.is_available = false
    ∧ (streamErrorEvent tr t n m ps).2.streamProto.state_changes
        = ps.streamProto.state_changes + 1
    ∧ (streamErrorEvent tr t n m ps).2.udpProto = ps.udpProto
    ∧ (RS_onError tr2 rc n m s).2 = s := by
  intro ps tr tr2 rc t n m s
  exact ⟨rfl, rfl, rfl, rfl⟩

/-- C9 counterexample: the monolith's admin handler answers the unknown
command `foo` with the fixed line `"ERROR\n"`, which does not name the
command. -/
theorem C9_cx :
    (___admin_command 100 "foo" c9stats [] protos0).1 = "ERROR\n"
    ∧ ¬ List.IsInfix "foo".toList "ERROR\n".toList := by
  decide

/-- C9 amended: the lib admin handler answers an unknown command with an
error line naming it, while the monolith's handler answers a generic
`"ERROR\n"`; in both, nothing closes the connection, and a session
consisting of an unknown command followed by `ping` receives the error
reply and then `pong`. -/
theorem C9_admin :
    (lib_admin_command 100 50 "foo" c9lib "CONFIGJSON").1
      = "ADMIN ERROR: UNKNOWN COMMAND foo\n"
    ∧ List.IsInfix "foo".toList ("ADMIN ERROR: UNKNOWN COMMAND foo\n").toList
    ∧ (admin_session 100 [] protos0 ["foo", "ping"] c9stats).1 = ["ERROR\n", "pong"]
    ∧ (lib_admin_session 100 50 "CONFIGJSON" ["foo", "ping"] c9lib).1
        = ["ADMIN ERROR: UNKNOWN COMMAND foo\n", "pong"] := by
  decide

/-- Constructing a remote never touches the shared stream cell (the udp
constructor only marks the udp cell). -/
theorem connect_streamProto (now fid : Nat) (name : String) (ps : Protos)
    (bp : Backend × Protos) (h : _connect_to_server now fid name ps = some bp) :
    bp.2.streamProto = ps.streamProto := by
  unfold _connect_to_server at h
  cases hk : parseServer name with
  | none => rw [hk] at h; cases h
  | some k =>
    rw [hk] at h
    cases k with
    | stream =>
      simp only [Option.some.injEq] at h
      rw [← h]
    | udp =>
      simp only [Option.some.injEq] at h
      rw [← h]
      rfl

/-- A supervisor tick never changes the shared stream cell: stream
replacements leave the cells alone and udp replacements only mark the udp
cell. -/
theorem tickGo_streamProto (now : Nat) (bs : List Backend) :
    ∀ (fid : Nat) (ps : Protos) (r : List Backend × Protos),
      tickGo now fid bs ps = some r → r.2.streamProto = ps.streamProto := by
  induction bs with
  | nil =>
    intro fid ps r h
    simp only [tickGo, Option.some.injEq] at h
    rw [← h]
  | cons b rest ih =>
    intro fid ps r h
    simp only [tickGo] at h
    split at h
    · split at h
      · cases h
      · rename_i b2 ps2 hc
        split at h
        · cases h
        · rename_i bs3 psf3 ht
          injection h with h
          rw [← h]
          have h1 := ih (fid + 1) ps2 (bs3, psf3) ht
          have h2 := connect_streamProto now fid b.name ps (b2, ps2) hc
          exact h1.trans h2
    · split at h
      · cases h
      · rename_i bs3 psf3 ht
        injection h with h
        rw [← h]
        exact ih (fid + 1) ps (bs3, psf3) ht

/-- A supervisor tick replaces every stream backend that is observed
unavailable at its position `i` with a freshly constructed
`RemoteStreamConnect` carrying handle id `fid + i`. -/
theorem tickGo_replace (now : Nat) (bs : List Backend) :
    ∀ (fid i : Nat) (ps : Protos) (bs2 : List Backend) (psf : Protos) (b : Backend),
      tickGo now fid bs ps = some (bs2, psf) →
      bs.get? i = some b → b.kind = Kind.stream →
      parseServer b.name = some Kind.stream →
      ps.streamProto.is_available = false →
      bs2.get? i = some (RemoteStreamConnect b.name (fid + i)) := by
  induction bs with
  | nil =>
    intro fid i ps bs2 psf b _ hg
    simp at hg
  | cons b0 rest ih =>
    intro fid i ps bs2 psf b h hg hk hp hav
    simp only [tickGo] at h
    cases i with
    | zero =>
      simp only [List.get?] at hg
      injection hg with hg
      subst hg
      have hcond : (protoOf ps b0.kind).is_available = false := by
        rw [hk]; exact hav
      rw [if_pos hcond] at h
      have hcs : _connect_to_server now fid b0.name ps
          = some (RemoteStreamConnect b0.name fid, ps) := by
        unfold _connect_to_server; rw [hp]
      rw [hcs] at h
      split at h
      · cases h
      · rename_i b2 ps2 ht
        injection ht with ht
        injection ht with hta htb
        subst hta
        subst htb
        split at h
        · cases h
        · rename_i bs3 psf3 ht2
          injection h with h
          injection h with ha hb
          subst ha
          simp [List.get?]
    | succ n =>
      simp only [List.get?] at hg
      split at h
      · rename_i hav0
        split at h
        · cases h
        · rename_i b2 ps2 hc
          split at h
          · cases h
          · rename_i bs3 psf3 ht
            injection h with h
            injection h with ha hb
            subst ha
            have hpstream := connect_streamProto now fid b0.name ps (b2, ps2) hc
            have hrec := ih (fid + 1) n ps2 bs3 psf3 b ht hg hk hp
              (by rw [hpstream]; exact hav)
            have harith : fid + 1 + n = fid + (n + 1) := by omega
            rw [harith] at hrec
            simpa [List.get?] using hrec
      · rename_i hav0
        split at h
        · cases h
        · rename_i bs3 psf3 ht
          injection h with h
          injection h with ha hb
          subst ha
          have hrec := ih (fid + 1) n ps bs3 psf3 b ht hg hk hp hav
          have harith : fid + 1 + n = fid + (n + 1) := by omega
          rw [harith] at hrec
          simpa [List.get?] using hrec

/-- C6 counterexample: one unavailable stream backend, never connecting.
The first tick starts a connect (fresh handle id 1); with that attempt
still pending (no connect event fires), the second tick does not skip the
backend — it constructs yet another connection (fresh handle id 2),
giving two concurrent in-flight connects. -/
theorem C6_cx :
    (Option.bind (reconnectTick 1 1 c6w) fun w1 =>
        Option.map (fun b => b.connection.id) w1.servers.head?) = some 1
    ∧ (Option.bind (Option.bind (reconnectTick 1 1 c6w) (reconnectTick 2 2)) fun w2 =>
        Option.map (fun b => b.connection.id) w2.servers.head?) = some 2 := by
  decide

/-- C6 amended: each supervisor tick re-invokes the connect operation on
every stream backend whose observed `is_available` is false,
unconditionally replacing its connection handle with a freshly
constructed one (`fid + i`); there is no in-flight tracking, so a pending
attempt from a previous tick never causes the backend to be skipped. -/
theorem C6_tick (now fid i : Nat) (w w2 : World) (b : Backend)
    (h : reconnectTick now fid w = some w2)
    (hg : w.servers.get? i = some b)
    (hk : b.kind = Kind.stream)
    (hp : parseServer b.name = some Kind.stream)
    (hav : observedAvail w.protos b = false) :
    w2.servers.get? i = some (RemoteStreamConnect b.name (fid + i)) := by
  unfold reconnectTick at h
  cases ht : tickGo now fid w.servers w.protos with
  | none => rw [ht] at h; cases h
  | some r =>
    rw [ht] at h
    simp only [Option.map_some', Option.some.injEq] at h
    have hav2 : w.protos.streamProto.is_available = false := by
      unfold observedAvail at hav; rw [hk] at hav; exact hav
    have hr := tickGo_replace now w.servers fid i w.protos r.1 r.2 b ht hg hk hp hav2
    rw [← h]
    exact hr

/-- Witness for `C6_tick`: a concrete unavailable stream backend with a
pending (indeed destroyed) old handle is replaced on the tick. -/
theorem C6_tick_witness :
    (reconnectTick 5 7 c6ww = some c6wx
     ∧ c6ww.servers.get? 0 = some c6wb
     ∧ c6wb.kind = Kind.stream
     ∧ parseServer c6wb.name = some Kind.stream
     ∧ observedAvail c6ww.protos c6wb = false)
    ∧ c6wx.servers.get? 0 = some (RemoteStreamConnect c6wb.name (7 + 0)) :=
  ⟨⟨by decide, by decide, by decide, by decide, by decide⟩,
   C6_tick 5 7 0 c6ww c6wx c6wb (by decide) (by decide) (by decide) (by decide) (by decide)⟩

/-- C7: a supervisor-triggered reconnect of an unavailable stream backend
replaces only its connection handle: the replacement at the same position
keeps the backend's name and kind, carries a fresh live handle, and the
shared stream cell — holding `state_change_count` (`state_changes`),
`last_sent_at` (`last_sent`) and `state_changed_at` (`state_changed`) —
is exactly the cell from before the tick.  (The monolith keeps no
per-message counter; the availability flip itself happens only later,
when the new handle's connect event fires.) -/
theorem C7_frame (now fid i : Nat) (w w2 : World) (b : Backend)
    (h : reconnectTick now fid w = some w2)
    (hg : w.servers.get? i = some b)
    (hk : b.kind = Kind.stream)
    (hp : parseServer b.name = some Kind.stream)
    (hav : observedAvail w.protos b = false) :
    (w2.servers.get? i = some (RemoteStreamConnect b.name (fid + i))
     ∧ (RemoteStreamConnect b.name (fid + i)).name = b.name
     ∧ (RemoteStreamConnect b.name (fid + i)).kind = b.kind
     ∧ (RemoteStreamConnect b.name (fid + i)).connection
         = { id := fid + i, destroyed := false })
    ∧ w2.protos.streamProto = w.protos.streamProto := by
  unfold reconnectTick at h
  cases ht : tickGo now fid w.servers w.protos with
  | none => rw [ht] at h; cases h
  | some r =>
    rw [ht] at h
    simp only [Option.map_some', Option.some.injEq] at h
    have hav2 : w.protos.streamProto.is_available = false := by
      unfold observedAvail at hav; rw [hk] at hav; exact hav
    have hr := tickGo_replace now w.servers fid i w.protos r.1 r.2 b ht hg hk hp hav2
    have hs := tickGo_streamProto now w.servers fid w.protos r ht
    rw [← h]
    exact ⟨⟨hr, rfl, hk.symm, rfl⟩, hs⟩

/-- Witness for `C7_frame`: a concrete unavailable unix-socket backend
with accumulated stats is reconnected; name and the shared cell's stats
are unchanged, only the handle is new. -/
theorem C7_frame_witness :
    (reconnectTick 9 4 c7w = some c7wx
     ∧ c7w.servers.get? 0 = some c7b
     ∧ c7b.kind = Kind.stream
     ∧ parseServer c7b.name = some Kind.stream
     ∧ observedAvail c7w.protos c7b = false)
    ∧ ((c7wx.servers.get? 0 = some (RemoteStreamConnect c7b.name (4 + 0))
        ∧ (RemoteStreamConnect c7b.name (4 + 0)).name = c7b.name
        ∧ (RemoteStreamConnect c7b.name (4 + 0)).kind = c7b.kind
        ∧ (RemoteStreamConnect c7b.name (4 + 0)).connection
            = { id := 4 + 0, destroyed := false })
       ∧ c7wx.protos.streamProto = c7w.protos.streamProto) :=
  ⟨⟨by decide, by decide, by decide, by decide, by decide⟩,
   C7_frame 9 4 0 c7w c7wx c7b (by decide) (by decide) (by decide) (by decide) (by decide)⟩

/-- C10: frame property of `_available_server`.  When the scan returns a
backend, it sits at some index `i`; the call's result is fully determined
by the list entries up to and including `i` (whatever follows is neither
read nor mutated); no cell's availability is ever flipped to true and no
cell's `last_sent` statistic is altered; and each cell is either left
exactly as it was or is the result of a single `mark_unavailable` call,
the latter only when some backend of that kind strictly before `i` was
scanned with a destroyed handle while the cell's `is_available` was still
true. -/
theorem C10_select_frame (now : Nat) (bs : List Backend) (ps ps2 : Protos) (b : Backend)
    (h : _available_server now bs ps = (some b, ps2)) :
    ∃ i, bs.get? i = some b
      ∧ (∀ tl, _available_server now (bs.take (i + 1) ++ tl) ps = (some b, ps2))
      ∧ (∀ k, ((protoOf ps2 k).is_available = true → (protoOf ps k).is_available = true)
            ∧ (protoOf ps2 k).last_sent = (protoOf ps k).last_sent
            ∧ (protoOf ps2 k = protoOf ps k
               ∨ (protoOf ps2 k = mark_unavailable now (protoOf ps k)
                  ∧ (protoOf ps k).is_available = true
                  ∧ ∃ j bj, j < i ∧ bs.get? j = some bj ∧ bj.kind = k
                      ∧ bj.connection.destroyed = true))) := by
  induction bs generalizing ps with
  | nil => simp [_available_server] at h
  | cons b0 rest ih =>
    simp only [_available_server] at h
    by_cases hav : (protoOf ps b0.kind).is_available = false
    · rw [if_pos hav] at h
      obtain ⟨i, hip, hpref, hcells⟩ := ih ps h
      refine ⟨i + 1, by simpa [List.get?] using hip, ?_, ?_⟩
      · intro tl
        simp only [List.take_succ_cons, List.cons_append, _available_server]
        rw [if_pos hav]
        exact hpref tl
      · intro k
        obtain ⟨hmono, hls, hmut⟩ := hcells k
        refine ⟨hmono, hls, ?_⟩
        rcases hmut with hsame | ⟨hm, htrue, j, bj, hj, hgj, hkj, hdj⟩
        · exact Or.inl hsame
        · exact Or.inr ⟨hm, htrue, j + 1, bj, by omega,
            by simpa [List.get?] using hgj, hkj, hdj⟩
    · rw [if_neg hav] at h
      have hbt : (protoOf ps b0.kind).is_available = true := by
        cases hvb : (protoOf ps b0.kind).is_available
        · exact absurd hvb hav
        · rfl
      by_cases hd : b0.connection.destroyed = true
      · rw [if_pos hd] at h
        obtain ⟨i, hip, hpref, hcells⟩ :=
          ih (setProto ps b0.kind (mark_unavailable now (protoOf ps b0.kind))) h
        refine ⟨i + 1, by simpa [List.get?] using hip, ?_, ?_⟩
        · intro tl
          simp only [List.take_succ_cons, List.cons_append, _available_server]
          rw [if_neg hav, if_pos hd]
          exact hpref tl
        · intro k
          obtain ⟨hmono, hls, hmut⟩ := hcells k
          have hps1k : protoOf (setProto ps b0.kind (mark_unavailable now (protoOf ps b0.kind))) k
              = if k = b0.kind then mark_unavailable now (protoOf ps b0.kind)
                else protoOf ps k :=
            protoOf_setProto ps (mark_unavailable now (protoOf ps b0.kind)) k b0.kind
          by_cases hkk : k = b0.kind
          · have e1 : protoOf (setProto ps b0.kind (mark_unavailable now (protoOf ps b0.kind))) k
                = mark_unavailable now (protoOf ps k) := by
              rw [hps1k, if_pos hkk, hkk]
            refine ⟨?_, ?_, ?_⟩
            · intro _
              rw [hkk]
              exact hbt
            · rw [hls, e1]
              rfl
            · rcases hmut with hsame | ⟨_, htrue1, _⟩
              · refine Or.inr ⟨by rw [hsame, e1], by rw [hkk]; exact hbt, 0, b0, by omega,
                  rfl, hkk.symm, hd⟩
              · exfalso
                rw [e1] at htrue1
                simp [mark_unavailable] at htrue1
          · have e1 : protoOf (setProto ps b0.kind (mark_unavailable now (protoOf ps b0.kind))) k
                = protoOf ps k := by
              rw [hps1k, if_neg hkk]
            refine ⟨?_, ?_, ?_⟩
            · intro htrue
              have := hmono htrue
              rw [e1] at this
              exact this
            · rw [hls, e1]
            · rcases hmut with hsame | ⟨hm, htrue1, j, bj, hj, hgj, hkj, hdj⟩
              · exact Or.inl (by rw [hsame, e1])
              · exact Or.inr ⟨by rw [hm, e1], by rw [e1] at htrue1; exact htrue1,
                  j + 1, bj, by omega, by simpa [List.get?] using hgj, hkj, hdj⟩
      · rw [if_neg hd] at h
        injection h with h1 h2
        injection h1 with h1
        subst h1
        subst h2
        refine ⟨0, rfl, ?_, ?_⟩
        · intro tl
          simp only [List.take_succ_cons, List.take_zero, List.cons_append,
            List.nil_append, _available_server]
          rw [if_neg hav, if_neg hd]
        · intro k
          exact ⟨fun x => x, rfl, Or.inl rfl⟩

/-- Witness for `C10_select_frame`: scanning a destroyed stream backend
followed by a live udp backend returns the udp backend and demotes only
the stream cell. -/
theorem C10_select_frame_witness :
    _available_server 5 c10bs c10ps = (some c10b2, c10psx)
    ∧ ∃ i, c10bs.get? i = some c10b2
        ∧ (∀ tl, _available_server 5 (c10bs.take (i + 1) ++ tl) c10ps = (some c10b2, c10psx))
        ∧ (∀ k, ((protoOf c10psx k).is_available = true → (protoOf c10ps k).is_available = true)
              ∧ (protoOf c10psx k).last_sent = (protoOf c10ps k).last_sent
              ∧ (protoOf c10psx k = protoOf c10ps k
                 ∨ (protoOf c10psx k = mark_unavailable 5 (protoOf c10ps k)
                    ∧ (protoOf c10ps k).is_available = true
                    ∧ ∃ j bj, j < i ∧ c10bs.get? j = some bj ∧ bj.kind = k
                        ∧ bj.connection.destroyed = true))) :=
  ⟨by decide, C10_select_frame 5 c10bs c10ps c10psx c10b2 (by decide)⟩

end Piped
